import Mathlib

/-!
Verification of the pose-extractor service (`src/pose_extractor.py`).

The Python module is glue code around an external pose model (MediaPipe),
an image codec (OpenCV) and an HTTP framework (Flask).  We embed the
repository's own logic shallowly:

* external collaborators (image decoding, model inference, the filesystem
  `save`, base64 byte decoding) are modelled as oracle functions collected
  in a `World` record, universally quantified in every theorem;
* result dictionaries become records whose optional keys are `Option`s,
  so "key absent" and "key present with empty value" stay distinct;
* landmark payloads (the x, y, z, visibility floats that the code merely
  copies) are an arbitrary type parameter `L` — the code never computes
  on them;
* `datetime.now().isoformat()` becomes a `now : String` parameter;
* base64 input strings are modelled as `List Char` so that Python's
  `str.split(',')` can be embedded as a structurally recursive function
  the kernel can evaluate.
-/

namespace PoseSpec

/-- A decoded pixel buffer's metadata: `image.shape` is
`(height, width, channels)` in the source. -/
structure Image where
  width : Nat
  height : Nat
  channels : Nat
deriving DecidableEq, Repr

/-- One entry of the `keypoints` list built by `extract_keypoints` /
`extract_keypoints_from_base64`: `{"id": idx, "name": ..., "x": ..., ...}`.
The four float fields copied verbatim from a landmark are abstracted as a
single payload of type `L`. -/
structure Keypoint (L : Type) where
  id : Nat
  name : String
  landmark : L
deriving DecidableEq, Repr

/-- The result dictionary returned by `extract_keypoints` and
`extract_keypoints_from_base64`.  The success branch returns
`{success, timestamp, image_info, keypoints, pose_detected}`; the
`except` branch returns `{success, error, timestamp}`.  Keys that one
branch omits are `Option`s (`none` = key absent). -/
structure KPResult (L : Type) where
  success : Bool
  timestamp : String
  image_info : Option Image
  keypoints : Option (List (Keypoint L))
  pose_detected : Option Bool
  error : Option String
deriving DecidableEq, Repr

/-- The external collaborators, per `pose_extractor.py` line by line:
`cv2.imread`, `self.pose.process` (which may raise `InferenceError`),
`base64.b64decode` (which may raise on malformed input),
`cv2.imdecode`, and Werkzeug's `file.save` (which may raise on I/O
failure).  `process` returning `.ok none` is the "no pose found"
outcome (`results.pose_landmarks is None`). -/
structure World (L : Type) where
  imread : String → Option Image
  process : Image → Except String (Option (List L))
  b64decode : List Char → Except String (List Nat)
  imdecode : List Nat → Option Image
  save : String → Except String Unit

/-- The fixed 33-entry lookup table local to `_get_keypoint_name`. -/
def keypointNames : List String :=
  ["NOSE", "LEFT_EYE_INNER", "LEFT_EYE", "LEFT_EYE_OUTER",
   "RIGHT_EYE_INNER", "RIGHT_EYE", "RIGHT_EYE_OUTER",
   "LEFT_EAR", "RIGHT_EAR", "MOUTH_LEFT", "MOUTH_RIGHT",
   "LEFT_SHOULDER", "RIGHT_SHOULDER", "LEFT_ELBOW", "RIGHT_ELBOW",
   "LEFT_WRIST", "RIGHT_WRIST", "LEFT_PINKY", "RIGHT_PINKY",
   "LEFT_INDEX", "RIGHT_INDEX", "LEFT_THUMB", "RIGHT_THUMB",
   "LEFT_HIP", "RIGHT_HIP", "LEFT_KNEE", "RIGHT_KNEE",
   "LEFT_ANKLE", "RIGHT_ANKLE", "LEFT_HEEL", "RIGHT_HEEL",
   "LEFT_FOOT_INDEX", "RIGHT_FOOT_INDEX"]

/-- `PoseExtractor._get_keypoint_name`:
`keypoint_names[idx] if idx < len(keypoint_names) else f"UNKNOWN_{idx}"`.
The only call sites pass `enumerate` indices, so the index is a `Nat`. -/
def getKeypointName (idx : Nat) : String :=
  if h : idx < keypointNames.length then keypointNames.get ⟨idx, h⟩
  else "UNKNOWN_" ++ toString idx

/-- The `except Exception` branch shared by both extraction methods:
`{"success": False, "error": str(e), "timestamp": ...}`. -/
def failureResult (L : Type) (e : String) (now : String) : KPResult L :=
  { success := false, timestamp := now, image_info := none,
    keypoints := none, pose_detected := none, error := some e }

/-- The `for idx, landmark in enumerate(results.pose_landmarks.landmark)`
loop that appends `{"id": idx, "name": self._get_keypoint_name(idx), ...}`
for each landmark. -/
def buildKeypoints {L : Type} (lms : List L) : List (Keypoint L) :=
  lms.enum.map (fun p => { id := p.1, name := getKeypointName p.1, landmark := p.2 })

/-- The success dictionary built by both extraction methods:
`pose_detected` is `results.pose_landmarks is not None` and the
keypoints list is filled only when landmarks are present. -/
def successResult {L : Type} (img : Image) (landmarks : Option (List L))
    (now : String) : KPResult L :=
  { success := true, timestamp := now,
    image_info := some img,
    keypoints := some (match landmarks with
      | none => []
      | some lms => buildKeypoints lms),
    pose_detected := some landmarks.isSome,
    error := none }

/-- `PoseExtractor.extract_keypoints(image_path)`.  `cv2.imread`
returning `None` raises `ValueError(f"Could not read image from ...")`;
an exception out of `self.pose.process` is caught by the same
`except` clause.  All exceptions are converted to `failureResult`. -/
def extractKeypoints {L : Type} (w : World L) (now : String) (path : String) :
    KPResult L :=
  match w.imread path with
  | none => failureResult L ("Could not read image from " ++ path) now
  | some img =>
    match w.process img with
    | .error e => failureResult L e now
    | .ok landmarks => successResult img landmarks now

/-- Python's `s.split(',')` on a character list: split at every comma,
keeping empty fields, never returning an empty list of fields. -/
def splitComma : List Char → List (List Char)
  | [] => [[]]
  | c :: rest =>
    if c = ',' then [] :: splitComma rest
    else
      match splitComma rest with
      | g :: gs => (c :: g) :: gs
      | [] => [[c]]

/-- The payload selection in `extract_keypoints_from_base64`:
`base64_image.split(',')[1] if ',' in base64_image else base64_image`.
When a comma is present `split` yields at least two fields, so the
`getD` default is unreachable. -/
def extractPayload (s : List Char) : List Char :=
  if ',' ∈ s then ((splitComma s).get? 1).getD [] else s

/-- `PoseExtractor.extract_keypoints_from_base64(base64_image)`:
base64-decode the selected payload, `cv2.imdecode` the bytes
(`None` raises `ValueError("Could not decode base64 image")`), then run
the same inference-and-serialize pipeline as `extract_keypoints`. -/
def extractKeypointsFromBase64 {L : Type} (w : World L) (now : String)
    (s : List Char) : KPResult L :=
  match w.b64decode (extractPayload s) with
  | .error e => failureResult L e now
  | .ok bytes =>
    match w.imdecode bytes with
    | none => failureResult L "Could not decode base64 image" now
    | some img =>
      match w.process img with
      | .error e => failureResult L e now
      | .ok landmarks => successResult img landmarks now

/-! ## HTTP layer (`extract_pose_api`, `visualize_pose_api`, `batch_extract_api`)

An uploaded multipart file is modelled by its `filename`; its bytes live
in the world (the temp path the handler saves it under is what
`w.imread` is consulted on).  The on-disk temp-file population is an
explicit `List String` threaded through the endpoints that the claims
inspect.  Framework request parsing (Flask/Werkzeug) is out of the
repository's scope, so a request arrives already parsed: the `image`
file is an `Option UploadedFile` and a parsed JSON body's
`base64_image` member is an `Option (List Char)`. -/

/-- An uploaded multipart file as the handlers see it. -/
structure UploadedFile where
  filename : String
deriving DecidableEq, Repr

/-- The JSON body a handler returns: either a bare `{"error": msg}`
object (the 400 responses) or a result dictionary (both the 200
`PoseResult` bodies and the 500 `{success: False, error, timestamp}`
bodies, which share the `KPResult` shape), or the visualization
success body `{success: True, visualization: <data URL>, timestamp}`
with the encoded image bytes abstracted away. -/
inductive Body (L : Type)
  | errMsg (msg : String)
  | result (r : KPResult L)
  | viz (ts : String)
deriving DecidableEq, Repr

/-- An HTTP response: Flask's `jsonify(x)` is status 200; `jsonify(x), n`
is status `n`. -/
structure Response (B : Type) where
  status : Nat
  body : B
deriving DecidableEq, Repr

/-- A parsed `/extract-pose` request: `'image' in request.files` and
`'base64_image' in request.json`. -/
structure ExtractRequest where
  imageFile : Option UploadedFile
  jsonB64 : Option (List Char)
deriving DecidableEq, Repr

/-- `extract_pose_api`: file upload branch (400 on empty filename, then
save to `temp_<now>_<filename>`, extract, `os.remove`, 200), base64
branch, or 400 "No image provided".  A raising `file.save` is caught by
the outer `except` clause and yields the 500 `{success: False, error,
timestamp}` body. -/
def extractPoseApi {L : Type} (w : World L) (now : String)
    (req : ExtractRequest) : Response (Body L) :=
  match req.imageFile with
  | some f =>
    if f.filename = "" then ⟨400, .errMsg "No file selected"⟩
    else
      let temp := "temp_" ++ now ++ "_" ++ f.filename
      match w.save temp with
      | .error e => ⟨500, .result (failureResult L e now)⟩
      | .ok _ => ⟨200, .result (extractKeypoints w now temp)⟩
  | none =>
    match req.jsonB64 with
    | some b => ⟨200, .result (extractKeypointsFromBase64 w now b)⟩
    | none =>
      ⟨400, .errMsg "No image provided. Use 'image' file or 'base64_image' in JSON"⟩

/-- `PoseExtractor.visualize_pose(image_path, output_path=None)` with
the temp-file population threaded through.  `cv2.imread` returning
`None` makes `cv2.cvtColor` raise (message abstracted); a raising
`self.pose.process` is also re-raised wrapped in
`"Visualization failed: ..."`.  On success `cv2.imwrite` creates the
output file (default name built from the input base name and the
timestamp) and the method returns its path. -/
def visualizePose {L : Type} (w : World L) (path : String)
    (outOpt : Option String) (now : String) (fs : List String) :
    Except String (String × List String) :=
  match w.imread path with
  | none => .error "Visualization failed: cvtColor: image is None"
  | some img =>
    match w.process img with
    | .error e => .error ("Visualization failed: " ++ e)
    | .ok _ =>
      let out := match outOpt with
        | some o => o
        | none => "pose_visualization_" ++ path ++ "_" ++ now ++ ".jpg"
      .ok (out, out :: fs)

/-- `visualize_pose_api`: 400 when no file or empty filename; otherwise
save the upload to `temp_input_<now>_<filename>`, run `visualize_pose`,
base64-encode the output file into the 200 body, and `os.remove` both
the temp input and the output.  An exception raised by
`visualize_pose` jumps to the `except` clause and returns 500 —
with no cleanup of the already-saved temp input file.  Returns the
response paired with the temp files that remain on disk. -/
def visualizePoseApi {L : Type} (w : World L) (now : String)
    (upload : Option UploadedFile) (fs : List String) :
    Response (Body L) × List String :=
  match upload with
  | none => (⟨400, .errMsg "No image file provided"⟩, fs)
  | some f =>
    if f.filename = "" then (⟨400, .errMsg "No file selected"⟩, fs)
    else
      let temp := "temp_input_" ++ now ++ "_" ++ f.filename
      match w.save temp with
      | .error e => (⟨500, .result (failureResult L e now)⟩, fs)
      | .ok _ =>
        let fs1 := temp :: fs
        match visualizePose w temp none now fs1 with
        | .error e => (⟨500, .result (failureResult L e now)⟩, fs1)
        | .ok (out, fs2) =>
          (⟨200, .viz now⟩, (fs2.erase temp).erase out)

/-- The `for file in files` loop of `batch_extract_api`: skip empty
filenames with `continue`; otherwise save to `temp_<now>_<filename>`,
extract, annotate the result with `result['filename'] = file.filename`,
append, and remove the temp file.  A raising `file.save` aborts the
loop into the outer `except` clause. -/
def batchLoop {L : Type} (w : World L) (now : String) :
    List UploadedFile → Except String (List (KPResult L × String))
  | [] => .ok []
  | f :: rest =>
    if f.filename = "" then batchLoop w now rest
    else
      let temp := "temp_" ++ now ++ "_" ++ f.filename
      match w.save temp with
      | .error e => .error e
      | .ok _ =>
        let r := extractKeypoints w now temp
        match batchLoop w now rest with
        | .error e => .error e
        | .ok rs => .ok ((r, f.filename) :: rs)

/-- The JSON body of a `/batch-extract` response. -/
inductive BatchBody (L : Type)
  | errMsg (msg : String)
  | fail (r : KPResult L)
  | ok (total : Nat) (results : List (KPResult L × String)) (ts : String)
deriving DecidableEq, Repr

/-- `batch_extract_api`: 400 when the `images` multipart field is
absent; otherwise run the loop and answer
`{success: True, total_processed: len(results), results, timestamp}`,
or the 500 error body when an exception escapes the loop. -/
def batchExtractApi {L : Type} (w : World L) (now : String)
    (files : Option (List UploadedFile)) : Response (BatchBody L) :=
  match files with
  | none => ⟨400, .errMsg "No images provided"⟩
  | some fl =>
    match batchLoop w now fl with
    | .error e => ⟨500, .fail (failureResult L e now)⟩
    | .ok rs => ⟨200, .ok rs.length rs now⟩

/-! ## CLI layer (`main`, `--mode cli`) -/

/-- The parsed CLI arguments relevant to CLI mode. -/
structure CliArgs where
  image : Option String
  output : Option String
  visualize : Bool
deriving DecidableEq, Repr

/-- One observable CLI effect: a printed line, the JSON result printed
to stdout (`print(json.dumps(result, indent=2))`), or the JSON result
written to a file (`json.dump(result, f, indent=2)`). -/
inductive CliEvent (L : Type)
  | line (s : String)
  | jsonOut (r : KPResult L)
  | savedJson (path : String) (r : KPResult L)
deriving DecidableEq, Repr

/-- `main` with `--mode cli`: require `--image`, check the file exists,
extract once, emit the result to `--output` or stdout, and optionally
visualize.  Returns the list of emitted events together with the list
of image paths actually processed; `visualize_pose` raising propagates
out of `main` uncaught (`.error`). -/
def mainCli {L : Type} (w : World L) (fileExists : String → Bool)
    (now : String) (a : CliArgs) : Except String (List (CliEvent L) × List String) :=
  match a.image with
  | none => .ok ([.line "Error: --image is required for CLI mode"], [])
  | some img =>
    if fileExists img = false then
      .ok ([.line ("Error: Image file not found: " ++ img)], [])
    else
      let r := extractKeypoints w now img
      let header : CliEvent L := .line ("Processing image: " ++ img)
      let outEvents : List (CliEvent L) := match a.output with
        | some o => [.savedJson o r, .line ("Results saved to: " ++ o)]
        | none => [.jsonOut r]
      if a.visualize then
        match visualizePose w img none now [] with
        | .error e => .error e
        | .ok (viz, _) =>
          .ok (header :: outEvents ++ [.line ("Visualization saved to: " ++ viz)], [img])
      else
        .ok (header :: outEvents, [img])

/-! ## Spec-side characterizations and concrete worlds for witnesses -/

/-- Everything strictly after the first comma — the payload the spec's
words describe ("exactly the substring after the first comma,
everything following it"). -/
def afterFirstComma : List Char → List Char
  | [] => []
  | c :: rest => if c = ',' then rest else afterFirstComma rest

/-- The longest comma-free initial segment. -/
def upToComma (s : List Char) : List Char := s.takeWhile (fun c => c ≠ ',')

/-- The value `batch_extract_api` accumulates in `results` when no
`file.save` raises: one `(PoseResult, filename)` per non-empty-filename
upload, in upload order. -/
def batchResults {L : Type} (w : World L) (now : String)
    (files : List UploadedFile) : List (KPResult L × String) :=
  (files.filter (fun f => f.filename ≠ "")).map
    (fun f => (extractKeypoints w now ("temp_" ++ now ++ "_" ++ f.filename), f.filename))

/-- A world in which every byte stream is corrupt: `cv2.imread` and
`cv2.imdecode` fail on everything, inference never finds a pose. -/
def wCorrupt : World Unit :=
  { imread := fun _ => none
    process := fun _ => .ok none
    b64decode := fun _ => .ok []
    imdecode := fun _ => none
    save := fun _ => .ok () }

/-- A world in which every image decodes and the model always returns a
conformant list of 33 landmarks. -/
def wDetect : World Unit :=
  { imread := fun _ => some ⟨640, 480, 3⟩
    process := fun _ => .ok (some (List.replicate 33 ()))
    b64decode := fun _ => .ok []
    imdecode := fun _ => some ⟨640, 480, 3⟩
    save := fun _ => .ok () }

/-- A world whose base64 decoder reports the exact payload it was
handed inside the error message, so the selected payload is observable
in the result. -/
def wProbe : World Unit :=
  { imread := fun _ => none
    process := fun _ => .ok none
    b64decode := fun p => .error (String.mk p)
    imdecode := fun _ => none
    save := fun _ => .ok () }

/-- A world in which `file.save` raises (for instance the disk is
full). -/
def wSaveFail : World Unit :=
  { imread := fun _ => none
    process := fun _ => .ok none
    b64decode := fun _ => .ok []
    imdecode := fun _ => none
    save := fun _ => .error "disk full" }

/-! ## Shared lemmas -/

theorem keypointNames_length : keypointNames.length = 33 := rfl

theorem splitComma_ne_nil (s : List Char) : splitComma s ≠ [] := by
  induction s with
  | nil => simp [splitComma]
  | cons c rest ih =>
    by_cases hc : c = ','
    · simp [splitComma, hc]
    · simp only [splitComma, if_neg hc]
      cases hrec : splitComma rest with
      | nil => simp
      | cons g gs => simp

theorem splitComma_eq (s : List Char) :
    splitComma s =
      upToComma s ::
        (if ',' ∈ s then splitComma (afterFirstComma s) else []) := by
  induction s with
  | nil => simp [splitComma, upToComma]
  | cons c rest ih =>
    by_cases hc : c = ','
    · subst hc
      simp [splitComma, upToComma, afterFirstComma, List.takeWhile]
    · have hmem : (',' ∈ c :: rest) ↔ (',' ∈ rest) := by
        simp only [List.mem_cons, or_iff_right_iff_imp]
        intro h
        exact absurd h.symm hc
      have hup : upToComma (c :: rest) = c :: upToComma rest := by
        simp [upToComma, List.takeWhile, hc]
      have haf : afterFirstComma (c :: rest) = afterFirstComma rest := by
        simp [afterFirstComma, hc]
      simp only [splitComma, if_neg hc, ih, hup, haf, hmem]

theorem extractPayload_of_comma {s : List Char} (h : ',' ∈ s) :
    extractPayload s = upToComma (afterFirstComma s) := by
  unfold extractPayload
  rw [if_pos h, splitComma_eq s, if_pos h, splitComma_eq (afterFirstComma s)]
  rfl

theorem extractPayload_of_no_comma {s : List Char} (h : ',' ∉ s) :
    extractPayload s = s := by
  unfold extractPayload
  rw [if_neg h]

/-! ## Claim C1 -/

/-- C1: `_get_keypoint_name(i)` returns exactly the i-th entry of the
fixed 33-name table (NOSE, LEFT_EYE_INNER, ..., RIGHT_FOOT_INDEX) for
every `0 ≤ i < 33`, and `"UNKNOWN_<i>"` for every `i ≥ 33`.  Being a
plain function of `i` (a Lean `def` with no state), the same `i` always
yields the same string, independent of call order. -/
theorem getKeypointName_table :
    (List.range 33).map getKeypointName =
      ["NOSE", "LEFT_EYE_INNER", "LEFT_EYE", "LEFT_EYE_OUTER",
       "RIGHT_EYE_INNER", "RIGHT_EYE", "RIGHT_EYE_OUTER",
       "LEFT_EAR", "RIGHT_EAR", "MOUTH_LEFT", "MOUTH_RIGHT",
       "LEFT_SHOULDER", "RIGHT_SHOULDER", "LEFT_ELBOW", "RIGHT_ELBOW",
       "LEFT_WRIST", "RIGHT_WRIST", "LEFT_PINKY", "RIGHT_PINKY",
       "LEFT_INDEX", "RIGHT_INDEX", "LEFT_THUMB", "RIGHT_THUMB",
       "LEFT_HIP", "RIGHT_HIP", "LEFT_KNEE", "RIGHT_KNEE",
       "LEFT_ANKLE", "RIGHT_ANKLE", "LEFT_HEEL", "RIGHT_HEEL",
       "LEFT_FOOT_INDEX", "RIGHT_FOOT_INDEX"] ∧
    ∀ i : Nat, 33 ≤ i → getKeypointName i = "UNKNOWN_" ++ toString i := by
  refine ⟨by decide, fun i hi => ?_⟩
  have hlt : ¬ i < keypointNames.length := by
    rw [keypointNames_length]
    omega
  unfold getKeypointName
  rw [dif_neg hlt]

/-- Witness for C1 at the overflow index 40. -/
theorem getKeypointName_table_witness : getKeypointName 40 = "UNKNOWN_40" := by
  have h := getKeypointName_table.2 40 (by norm_num)
  rw [h]
  rfl

/-! ## Claim C3 -/

/-- C3 counterexample: on `"x,ab,cd"` (as a character list) the code
selects `split(',')[1] = "ab"`, not the substring after the first comma
`"ab,cd"`; the probing world observes that `"ab"` is exactly what is
handed to the base64 decoder. -/
theorem extractPayload_counterexample :
    (',' ∈ ['x', ',', 'a', 'b', ',', 'c', 'd']) ∧
    extractPayload ['x', ',', 'a', 'b', ',', 'c', 'd'] = ['a', 'b'] ∧
    afterFirstComma ['x', ',', 'a', 'b', ',', 'c', 'd'] =
      ['a', 'b', ',', 'c', 'd'] ∧
    extractPayload ['x', ',', 'a', 'b', ',', 'c', 'd'] ≠
      afterFirstComma ['x', ',', 'a', 'b', ',', 'c', 'd'] ∧
    (extractKeypointsFromBase64 wProbe "T"
        ['x', ',', 'a', 'b', ',', 'c', 'd']).error = some "ab" := by
  decide

/-- C3 (amended): when the input contains a comma, the payload handed to
the base64 decoder is the substring after the first comma and before
the second comma (the second comma-separated field), not everything
after the first comma; without a comma the whole string is the payload;
the decoded result depends on the input only through that payload; and
a payload whose bytes are not a decodable image yields a decode-error
result, never success. -/
theorem base64_payload_selection {L : Type} (w : World L) (now : String)
    (s : List Char) :
    ((',' ∈ s) → extractPayload s = upToComma (afterFirstComma s)) ∧
    ((',' ∉ s) → extractPayload s = s) ∧
    (∀ t : List Char, extractPayload s = extractPayload t →
      extractKeypointsFromBase64 w now s = extractKeypointsFromBase64 w now t) ∧
    (∀ bytes, w.b64decode (extractPayload s) = .ok bytes →
      w.imdecode bytes = none →
      (extractKeypointsFromBase64 w now s).success = false ∧
      (extractKeypointsFromBase64 w now s).error =
        some "Could not decode base64 image") := by
  refine ⟨fun h => extractPayload_of_comma h,
          fun h => extractPayload_of_no_comma h, ?_, ?_⟩
  · intro t he
    unfold extractKeypointsFromBase64
    rw [he]
  · intro bytes hb hi
    simp only [extractKeypointsFromBase64, hb, hi]
    exact ⟨rfl, rfl⟩

/-- Witness for the amended C3 on the single-comma input `"a,bc"` in a
world where nothing decodes as an image. -/
theorem base64_payload_selection_witness :
    extractPayload ['a', ',', 'b', 'c'] = ['b', 'c'] ∧
    (extractKeypointsFromBase64 wCorrupt "T" ['a', ',', 'b', 'c']).success
      = false := by
  have h := base64_payload_selection wCorrupt "T" ['a', ',', 'b', 'c']
  constructor
  · rw [h.1 (by decide)]
    decide
  · exact (h.2.2.2 [] rfl rfl).1

/-! ## Claims C5, C6, C9 -/

theorem buildKeypoints_map_id {L : Type} (lms : List L) :
    (buildKeypoints lms).map Keypoint.id = List.range lms.length := by
  unfold buildKeypoints
  rw [List.map_map]
  exact List.enum_map_fst lms

theorem buildKeypoints_length {L : Type} (lms : List L) :
    (buildKeypoints lms).length = lms.length := by
  simp [buildKeypoints]

theorem successResult_invariant {L : Type} (img : Image)
    (landmarks : Option (List L)) (now : String)
    (h33 : ∀ l, landmarks = some l → l.length = 33)
    (kps : List (Keypoint L))
    (hk : (successResult img landmarks now).keypoints = some kps) :
    (kps.map Keypoint.id).Nodup ∧
    kps.map Keypoint.id = List.range kps.length ∧
    ((successResult img landmarks now).pose_detected = some true →
      kps.map Keypoint.id = List.range 33) ∧
    (kps = [] ↔ (successResult img landmarks now).pose_detected = some false) := by
  cases landmarks with
  | none =>
    simp only [successResult, Option.some.injEq] at hk
    subst hk
    simp [successResult]
  | some lms =>
    have hlen : lms.length = 33 := h33 lms rfl
    simp only [successResult, Option.some.injEq] at hk
    subst hk
    have hmap := buildKeypoints_map_id lms
    have hbl := buildKeypoints_length lms
    refine ⟨?_, ?_, ?_, ?_⟩
    · rw [hmap]
      exact List.nodup_range _
    · rw [hmap, hbl]
    · intro _
      rw [hmap, hlen]
    · simp only [successResult, Option.isSome_some, Option.some.injEq]
      constructor
      · intro hnil
        have : (buildKeypoints lms).length = 0 := by rw [hnil]; rfl
        rw [hbl, hlen] at this
        exact absurd this (by norm_num)
      · intro h
        exact absurd h (by simp)

/-- C5: for every successful result of `extract_keypoints` or
`extract_keypoints_from_base64`, under the adapter contract that the
model returns exactly 33 landmarks whenever it returns any (spec §4.2),
the keypoint ids are pairwise distinct, appear in landmark order
(`0..32` when a pose is detected), and the sequence is empty iff
`pose_detected` is false. -/
theorem keypoint_invariants {L : Type} (w : World L) (now path : String)
    (s : List Char) (r : KPResult L)
    (hr : r = extractKeypoints w now path ∨
          r = extractKeypointsFromBase64 w now s)
    (hc : ∀ img l, w.process img = .ok (some l) → l.length = 33)
    (hs : r.success = true) (kps : List (Keypoint L))
    (hk : r.keypoints = some kps) :
    (kps.map Keypoint.id).Nodup ∧
    kps.map Keypoint.id = List.range kps.length ∧
    (r.pose_detected = some true → kps.map Keypoint.id = List.range 33) ∧
    (kps = [] ↔ r.pose_detected = some false) := by
  rcases hr with rfl | rfl
  · cases hi : w.imread path with
    | none =>
      have heq : extractKeypoints w now path =
          failureResult L ("Could not read image from " ++ path) now := by
        simp [extractKeypoints, hi]
      rw [heq] at hs
      exact absurd hs (by simp [failureResult])
    | some img =>
      cases hp : w.process img with
      | error e =>
        have heq : extractKeypoints w now path = failureResult L e now := by
          simp [extractKeypoints, hi, hp]
        rw [heq] at hs
        exact absurd hs (by simp [failureResult])
      | ok lm =>
        have heq : extractKeypoints w now path = successResult img lm now := by
          simp [extractKeypoints, hi, hp]
        rw [heq] at hk ⊢
        exact successResult_invariant img lm now
          (fun l hl => hc img l (by rw [hp, hl])) kps hk
  · cases hb : w.b64decode (extractPayload s) with
    | error e =>
      have heq : extractKeypointsFromBase64 w now s = failureResult L e now := by
        simp [extractKeypointsFromBase64, hb]
      rw [heq] at hs
      exact absurd hs (by simp [failureResult])
    | ok bytes =>
      cases hd : w.imdecode bytes with
      | none =>
        have heq : extractKeypointsFromBase64 w now s =
            failureResult L "Could not decode base64 image" now := by
          simp [extractKeypointsFromBase64, hb, hd]
        rw [heq] at hs
        exact absurd hs (by simp [failureResult])
      | some img =>
        cases hp : w.process img with
        | error e =>
          have heq : extractKeypointsFromBase64 w now s = failureResult L e now := by
            simp [extractKeypointsFromBase64, hb, hd, hp]
          rw [heq] at hs
          exact absurd hs (by simp [failureResult])
        | ok lm =>
          have heq : extractKeypointsFromBase64 w now s = successResult img lm now := by
            simp [extractKeypointsFromBase64, hb, hd, hp]
          rw [heq] at hk ⊢
          exact successResult_invariant img lm now
            (fun l hl => hc img l (by rw [hp, hl])) kps hk

/-- Witness for C5 in the always-detecting world: 33 landmarks give ids
`0..32` in order. -/
theorem keypoint_invariants_witness :
    ((buildKeypoints (List.replicate 33 ())).map Keypoint.id).Nodup ∧
    (buildKeypoints (List.replicate 33 ())).map Keypoint.id =
      List.range (buildKeypoints (List.replicate 33 ())).length ∧
    ((extractKeypoints wDetect "T" "p.jpg").pose_detected = some true →
      (buildKeypoints (List.replicate 33 ())).map Keypoint.id = List.range 33) ∧
    (buildKeypoints (List.replicate 33 ()) = [] ↔
      (extractKeypoints wDetect "T" "p.jpg").pose_detected = some false) := by
  refine keypoint_invariants wDetect "T" "p.jpg" []
    (extractKeypoints wDetect "T" "p.jpg") (Or.inl rfl) ?_ rfl
    (buildKeypoints (List.replicate 33 ())) rfl
  intro img l h
  simp only [wDetect] at h
  injection h with h1
  injection h1 with h2
  rw [← h2]
  simp

theorem read_error_ne_empty (p : String) :
    ("Could not read image from " ++ p) ≠ "" := by
  intro h
  have hd := congrArg String.data h
  rw [String.data_append] at hd
  exact absurd (List.append_eq_nil.mp hd).1 (by decide)

/-- C6: a byte stream that does not decode as an image — `cv2.imread`
returning `None` on the file route, or `cv2.imdecode` returning `None`
on the base64 route — yields a result with `success = false` and a
non-empty error string; the embedding is a total function, so no
exception escapes. -/
theorem decode_failure_reported {L : Type} (w : World L) (now path : String)
    (s : List Char) :
    (w.imread path = none →
      (extractKeypoints w now path).success = false ∧
      (extractKeypoints w now path).error =
        some ("Could not read image from " ++ path) ∧
      ("Could not read image from " ++ path) ≠ "") ∧
    (∀ bytes, w.b64decode (extractPayload s) = .ok bytes →
      w.imdecode bytes = none →
      (extractKeypointsFromBase64 w now s).success = false ∧
      (extractKeypointsFromBase64 w now s).error =
        some "Could not decode base64 image" ∧
      ("Could not decode base64 image" : String) ≠ "") := by
  constructor
  · intro h
    refine ⟨?_, ?_, read_error_ne_empty path⟩ <;>
      simp [extractKeypoints, h, failureResult]
  · intro bytes hb hd
    refine ⟨?_, ?_, by decide⟩ <;>
      simp [extractKeypointsFromBase64, hb, hd, failureResult]

/-- Witness for C6 in the all-corrupt world. -/
theorem decode_failure_reported_witness :
    (extractKeypoints wCorrupt "T" "bad.jpg").success = false ∧
    (extractKeypointsFromBase64 wCorrupt "T" ['q']).success = false :=
  ⟨((decode_failure_reported wCorrupt "T" "bad.jpg" ['q']).1 rfl).1,
   ((decode_failure_reported wCorrupt "T" "bad.jpg" ['q']).2 [] rfl rfl).1⟩

/-- C9: both extraction methods are total at their interface: whatever
the world does, the result always carries the call's timestamp and is
either a success record with no error key, or a failure record whose
error key is present. -/
theorem extract_total_interface {L : Type} (w : World L) (now path : String)
    (s : List Char) :
    ((extractKeypoints w now path).timestamp = now ∧
      (((extractKeypoints w now path).success = true ∧
        (extractKeypoints w now path).error = none) ∨
       ((extractKeypoints w now path).success = false ∧
        ((extractKeypoints w now path).error).isSome = true))) ∧
    ((extractKeypointsFromBase64 w now s).timestamp = now ∧
      (((extractKeypointsFromBase64 w now s).success = true ∧
        (extractKeypointsFromBase64 w now s).error = none) ∨
       ((extractKeypointsFromBase64 w now s).success = false ∧
        ((extractKeypointsFromBase64 w now s).error).isSome = true))) := by
  constructor
  · cases hi : w.imread path with
    | none => simp [extractKeypoints, hi, failureResult]
    | some img =>
      cases hp : w.process img with
      | error e => simp [extractKeypoints, hi, hp, failureResult]
      | ok lm => simp [extractKeypoints, hi, hp, successResult]
  · cases hb : w.b64decode (extractPayload s) with
    | error e => simp [extractKeypointsFromBase64, hb, failureResult]
    | ok bytes =>
      cases hd : w.imdecode bytes with
      | none => simp [extractKeypointsFromBase64, hb, hd, failureResult]
      | some img =>
        cases hp : w.process img with
        | error e => simp [extractKeypointsFromBase64, hb, hd, hp, failureResult]
        | ok lm => simp [extractKeypointsFromBase64, hb, hd, hp, successResult]

/-! ## Claims C2 and C10 -/

theorem batchLoop_eq {L : Type} (w : World L) (now : String)
    (files : List UploadedFile) (hsave : ∀ p, w.save p = .ok ()) :
    batchLoop w now files = .ok (batchResults w now files) := by
  induction files with
  | nil => simp [batchLoop, batchResults]
  | cons f rest ih =>
    by_cases hf : f.filename = ""
    · have h1 : batchLoop w now (f :: rest) = batchLoop w now rest := by
        simp [batchLoop, hf]
      have h2 : batchResults w now (f :: rest) = batchResults w now rest := by
        simp [batchResults, List.filter_cons, hf]
      rw [h1, h2, ih]
    · have h1 : batchLoop w now (f :: rest) =
          match batchLoop w now rest with
          | .error e => .error e
          | .ok rs =>
            .ok ((extractKeypoints w now ("temp_" ++ now ++ "_" ++ f.filename),
                  f.filename) :: rs) := by
        simp [batchLoop, hf, hsave]
      have h2 : batchResults w now (f :: rest) =
          (extractKeypoints w now ("temp_" ++ now ++ "_" ++ f.filename),
           f.filename) :: batchResults w now rest := by
        simp [batchResults, List.filter_cons, hf]
      rw [h1, ih, h2]

theorem batch_count_split (files : List UploadedFile) :
    (files.filter (fun f => f.filename ≠ "")).length =
      files.length - (files.filter (fun f => f.filename = "")).length := by
  induction files with
  | nil => simp
  | cons f rest ih =>
    have hle := List.length_filter_le
      (fun f : UploadedFile => decide (f.filename = "")) rest
    by_cases hf : f.filename = ""
    · have h1 : (f :: rest).filter (fun f => f.filename ≠ "") =
          rest.filter (fun f => f.filename ≠ "") := by
        simp [List.filter_cons, hf]
      have h2 : (f :: rest).filter (fun f => f.filename = "") =
          f :: rest.filter (fun f => f.filename = "") := by
        simp [List.filter_cons, hf]
      rw [h1, h2, ih]
      simp only [List.length_cons]
      omega
    · have h1 : (f :: rest).filter (fun f => f.filename ≠ "") =
          f :: rest.filter (fun f => f.filename ≠ "") := by
        simp [List.filter_cons, hf]
      have h2 : (f :: rest).filter (fun f => f.filename = "") =
          rest.filter (fun f => f.filename = "") := by
        simp [List.filter_cons, hf]
      rw [h1, h2]
      simp only [List.length_cons]
      omega

/-- C2: with `N` uploaded files of which `M` have an empty filename,
the batch endpoint skips the `M` empty-filename entries, produces one
filename-annotated record for every other entry regardless of that
entry's extraction outcome, and answers 200 with
`total_processed = N - M` equal to the length of `results`
(assuming no `file.save` call raises). -/
theorem batch_counts {L : Type} (w : World L) (now : String)
    (files : List UploadedFile) (hsave : ∀ p, w.save p = .ok ()) :
    batchExtractApi w now (some files) =
      ⟨200, .ok (batchResults w now files).length (batchResults w now files) now⟩ ∧
    (batchResults w now files).length =
      files.length - (files.filter (fun f => f.filename = "")).length ∧
    (batchResults w now files).map Prod.snd =
      (files.filter (fun f => f.filename ≠ "")).map UploadedFile.filename := by
  refine ⟨?_, ?_, ?_⟩
  · simp [batchExtractApi, batchLoop_eq w now files hsave]
  · unfold batchResults
    rw [List.length_map]
    exact batch_count_split files
  · unfold batchResults
    rw [List.map_map]
    rfl

/-- Witness for C2: three uploads, one with an empty filename, give
`total_processed = 2`. -/
theorem batch_counts_witness :
    (batchExtractApi wCorrupt "T"
        (some [⟨"a.jpg"⟩, ⟨""⟩, ⟨"b.png"⟩])).status = 200 ∧
    (batchResults wCorrupt "T" [⟨"a.jpg"⟩, ⟨""⟩, ⟨"b.png"⟩]).length = 2 := by
  have h := batch_counts wCorrupt "T" [⟨"a.jpg"⟩, ⟨""⟩, ⟨"b.png"⟩]
    (fun p => rfl)
  constructor
  · rw [h.1]
  · rw [h.2.1]
    decide

/-- C10: the batch endpoint preserves upload order: the `results`
array is exactly the non-empty-filename uploads mapped, in their
original relative order, to their extraction result annotated with
their filename — in particular the i-th result corresponds to the
i-th non-empty-filename upload. -/
theorem batch_order {L : Type} (w : World L) (now : String)
    (files : List UploadedFile) (hsave : ∀ p, w.save p = .ok ()) :
    (batchExtractApi w now (some files)).body =
      .ok (batchResults w now files).length (batchResults w now files) now ∧
    (∀ i : Nat, (batchResults w now files)[i]? =
      ((files.filter (fun f => f.filename ≠ ""))[i]?).map
        (fun f => (extractKeypoints w now ("temp_" ++ now ++ "_" ++ f.filename),
                   f.filename))) := by
  refine ⟨by simp [batchExtractApi, batchLoop_eq w now files hsave], ?_⟩
  intro i
  unfold batchResults
  rw [List.getElem?_map]

/-- Witness for C10: the second produced result belongs to the second
non-empty-filename upload. -/
theorem batch_order_witness :
    (batchResults wCorrupt "T" [⟨"a.jpg"⟩, ⟨""⟩, ⟨"b.png"⟩])[1]? =
      some (extractKeypoints wCorrupt "T" "temp_T_b.png", "b.png") := by
  have h := (batch_order wCorrupt "T" [⟨"a.jpg"⟩, ⟨""⟩, ⟨"b.png"⟩]
    (fun p => rfl)).2 1
  rw [h]
  decide

/-! ## Claim C7 -/

/-- C7: `/extract-pose` answers 400 when neither input is present and
when the uploaded file's filename is empty; an internal failure (a
raising `file.save`) is caught and answered as 500 whose body is the
`{success: false, error, timestamp}` record; otherwise the extraction
result is returned as the 200 body, and every 500 body is such a
failure record. -/
theorem extract_pose_status {L : Type} (w : World L) (now : String)
    (req : ExtractRequest) :
    (req.imageFile = none → req.jsonB64 = none →
      extractPoseApi w now req =
        ⟨400, .errMsg "No image provided. Use 'image' file or 'base64_image' in JSON"⟩) ∧
    (∀ f, req.imageFile = some f → f.filename = "" →
      extractPoseApi w now req = ⟨400, .errMsg "No file selected"⟩) ∧
    (∀ f e, req.imageFile = some f → f.filename ≠ "" →
      w.save ("temp_" ++ now ++ "_" ++ f.filename) = .error e →
      extractPoseApi w now req = ⟨500, .result (failureResult L e now)⟩ ∧
      (failureResult L e now).success = false ∧
      (failureResult L e now).error = some e ∧
      (failureResult L e now).timestamp = now) ∧
    (∀ f, req.imageFile = some f → f.filename ≠ "" →
      w.save ("temp_" ++ now ++ "_" ++ f.filename) = .ok () →
      extractPoseApi w now req =
        ⟨200, .result (extractKeypoints w now ("temp_" ++ now ++ "_" ++ f.filename))⟩) ∧
    (∀ b, req.imageFile = none → req.jsonB64 = some b →
      extractPoseApi w now req =
        ⟨200, .result (extractKeypointsFromBase64 w now b)⟩) ∧
    ((extractPoseApi w now req).status = 500 →
      ∃ e, (extractPoseApi w now req).body = .result (failureResult L e now)) := by
  refine ⟨?_, ?_, ?_, ?_, ?_, ?_⟩
  · intro h1 h2
    simp [extractPoseApi, h1, h2]
  · intro f hf he
    simp [extractPoseApi, hf, he]
  · intro f e hf hne hsv
    exact ⟨by simp [extractPoseApi, hf, hne, hsv], rfl, rfl, rfl⟩
  · intro f hf hne hsv
    simp [extractPoseApi, hf, hne, hsv]
  · intro b h1 hb
    simp [extractPoseApi, h1, hb]
  · intro h500
    cases hif : req.imageFile with
    | some f =>
      by_cases hfn : f.filename = ""
      · rw [show extractPoseApi w now req = ⟨400, .errMsg "No file selected"⟩
            from by simp [extractPoseApi, hif, hfn]] at h500
        exact absurd h500 (by norm_num)
      · cases hsv : w.save ("temp_" ++ now ++ "_" ++ f.filename) with
        | error e =>
          refine ⟨e, ?_⟩
          rw [show extractPoseApi w now req = ⟨500, .result (failureResult L e now)⟩
            from by simp [extractPoseApi, hif, hfn, hsv]]
        | ok u =>
          cases u
          rw [show extractPoseApi w now req =
              ⟨200, .result (extractKeypoints w now ("temp_" ++ now ++ "_" ++ f.filename))⟩
            from by simp [extractPoseApi, hif, hfn, hsv]] at h500
          exact absurd h500 (by norm_num)
    | none =>
      cases hjb : req.jsonB64 with
      | some b =>
        rw [show extractPoseApi w now req =
            ⟨200, .result (extractKeypointsFromBase64 w now b)⟩
          from by simp [extractPoseApi, hif, hjb]] at h500
        exact absurd h500 (by norm_num)
      | none =>
        rw [show extractPoseApi w now req =
            ⟨400, .errMsg "No image provided. Use 'image' file or 'base64_image' in JSON"⟩
          from by simp [extractPoseApi, hif, hjb]] at h500
        exact absurd h500 (by norm_num)

/-- Witness for C7: no input gives 400; a raising `file.save` gives 500
with the structured failure body. -/
theorem extract_pose_status_witness :
    extractPoseApi wCorrupt "T" ⟨none, none⟩ =
      ⟨400, .errMsg "No image provided. Use 'image' file or 'base64_image' in JSON"⟩ ∧
    extractPoseApi wSaveFail "T" ⟨some ⟨"a.jpg"⟩, none⟩ =
      ⟨500, .result (failureResult Unit "disk full" "T")⟩ := by
  constructor
  · exact (extract_pose_status wCorrupt "T" ⟨none, none⟩).1 rfl rfl
  · exact ((extract_pose_status wSaveFail "T" ⟨some ⟨"a.jpg"⟩, none⟩).2.2.1
      ⟨"a.jpg"⟩ "disk full" rfl (by decide) rfl).1

/-! ## Claim C4 -/

/-- C4 (code bug): `/visualize-pose` does not clean up its temporary
input file on the failure path.  With an upload whose bytes are not a
decodable image, `visualize_pose` raises, the handler answers 500, and
the saved `temp_input_<ts>_<filename>` file remains on disk —
contradicting the claimed scoped-resource discipline.  On the success
path (second conjunct) both temp files are indeed removed. -/
theorem visualize_temp_leak :
    (visualizePoseApi wCorrupt "TS" (some ⟨"a.jpg"⟩) []).1.status = 500 ∧
    (visualizePoseApi wCorrupt "TS" (some ⟨"a.jpg"⟩) []).2 =
      ["temp_input_TS_a.jpg"] ∧
    (visualizePoseApi wDetect "TS" (some ⟨"a.jpg"⟩) []).1.status = 200 ∧
    (visualizePoseApi wDetect "TS" (some ⟨"a.jpg"⟩) []).2 = [] := by
  refine ⟨rfl, by decide, rfl, by decide⟩

/-! ## Claim C8 -/

/-- C8: in CLI mode a missing `--image` flag or a non-existent image
file prints an error and exits normally without processing any image;
otherwise exactly the given image is processed and the JSON result
goes to the `--output` path when given (with a confirmation line) and
to standard output otherwise — with and without `--visualize` alike —
and `--visualize` additionally prints the visualization's file path
after the JSON emission. -/
theorem cli_behavior {L : Type} (w : World L) (fileExists : String → Bool)
    (now : String) (a : CliArgs) :
    (a.image = none →
      mainCli w fileExists now a =
        .ok ([.line "Error: --image is required for CLI mode"], [])) ∧
    (∀ p, a.image = some p → fileExists p = false →
      mainCli w fileExists now a =
        .ok ([.line ("Error: Image file not found: " ++ p)], [])) ∧
    (∀ p o, a.image = some p → fileExists p = true → a.output = some o →
      a.visualize = false →
      mainCli w fileExists now a =
        .ok ([.line ("Processing image: " ++ p),
              .savedJson o (extractKeypoints w now p),
              .line ("Results saved to: " ++ o)], [p])) ∧
    (∀ p, a.image = some p → fileExists p = true → a.output = none →
      a.visualize = false →
      mainCli w fileExists now a =
        .ok ([.line ("Processing image: " ++ p),
              .jsonOut (extractKeypoints w now p)], [p])) ∧
    (∀ p o v fs2, a.image = some p → fileExists p = true → a.output = some o →
      a.visualize = true →
      visualizePose w p none now [] = .ok (v, fs2) →
      mainCli w fileExists now a =
        .ok ([.line ("Processing image: " ++ p),
              .savedJson o (extractKeypoints w now p),
              .line ("Results saved to: " ++ o),
              .line ("Visualization saved to: " ++ v)], [p])) ∧
    (∀ p v fs2, a.image = some p → fileExists p = true → a.output = none →
      a.visualize = true →
      visualizePose w p none now [] = .ok (v, fs2) →
      mainCli w fileExists now a =
        .ok ([.line ("Processing image: " ++ p),
              .jsonOut (extractKeypoints w now p),
              .line ("Visualization saved to: " ++ v)], [p])) := by
  refine ⟨?_, ?_, ?_, ?_, ?_, ?_⟩
  · intro h
    simp [mainCli, h]
  · intro p hp hfe
    simp [mainCli, hp, hfe]
  · intro p o hp hfe ho hv
    simp [mainCli, hp, hfe, ho, hv]
  · intro p hp hfe ho hv
    simp [mainCli, hp, hfe, ho, hv]
  · intro p o v fs2 hp hfe ho hv hviz
    simp [mainCli, hp, hfe, ho, hv, hviz]
  · intro p v fs2 hp hfe ho hv hviz
    simp [mainCli, hp, hfe, ho, hv, hviz]

/-- Witness for C8: a `--visualize` invocation on an existing image
emits the JSON result to standard output and then prints the
visualization path; a missing `--image` flag prints the error line and
processes nothing. -/
theorem cli_behavior_witness :
    mainCli wDetect (fun _ => true) "T" ⟨some "img.jpg", none, true⟩ =
      .ok ([.line "Processing image: img.jpg",
            .jsonOut (extractKeypoints wDetect "T" "img.jpg"),
            .line "Visualization saved to: pose_visualization_img.jpg_T.jpg"],
           ["img.jpg"]) ∧
    mainCli wCorrupt (fun _ => false) "T" ⟨none, none, false⟩ =
      .ok ([.line "Error: --image is required for CLI mode"], []) := by
  constructor
  · exact (cli_behavior wDetect (fun _ => true) "T"
      ⟨some "img.jpg", none, true⟩).2.2.2.2.2 "img.jpg"
      "pose_visualization_img.jpg_T.jpg" ["pose_visualization_img.jpg_T.jpg"]
      rfl rfl rfl rfl rfl
  · exact (cli_behavior wCorrupt (fun _ => false) "T" ⟨none, none, false⟩).1 rfl

end PoseSpec
